import Mathlib

/-!
Verification of the workflow-orchestration core of RepoAuditor-AI.

This file gives a shallow embedding, in Lean, of the parts of the source
that the specification's claims are about:

* `app/utils/rate_limiter.py` — the three-tier file-backed rate limiter
  (`RateLimiter.check_and_record` and its helpers);
* `app/agents/state.py` — the `WorkflowState` container and its immutable
  update library (`update_state`, `add_review_finding`, `set_error`,
  `update_metadata`);
* `app/utils/decorators.py` — the `rate_limited` node wrapper;
* `app/workflows/security_fix_workflow.py`,
  `app/workflows/incremental_review_workflow.py`,
  `app/workflows/auto_fix_workflow.py` — pipeline graphs and their routing
  functions;
* `app/workflows/executor.py` — `execute_workflow_from_webhook`'s result
  construction.

Times are modelled as seconds since the Unix epoch (`Nat`).  The Python
code compares parsed datetimes with `>` against `now - window`; over
non-negative epoch seconds this is exactly `ts + window > now`, which is
the form used below (it avoids truncated `Nat` subtraction).  Calendar
dates (`datetime.date().isoformat()`) are modelled by the day number
`t / 86400`: two instants render the same ISO date string iff they lie in
the same UTC day.
-/

/-! ## Association lists with Python `dict` semantics

The rate-limiter store and the dynamic `TypedDict` states are Python
dictionaries.  We model them as association lists: lookup returns the
first (unique) binding; `setKey` updates an existing key in place and
appends a new key at the end, matching `dict` insertion-order semantics.
-/

def lookupKey {α : Type} (l : List (String × α)) (k : String) : Option α :=
  match l with
  | [] => Option.none
  | (k', v) :: rest => if k' = k then some v else lookupKey rest k

def setKey {α : Type} (l : List (String × α)) (k : String) (v : α) :
    List (String × α) :=
  match l with
  | [] => [(k, v)]
  | (k', v') :: rest =>
      if k' = k then (k, v) :: rest else (k', v') :: setKey rest k v

theorem lookupKey_setKey_self {α : Type} (l : List (String × α)) (k : String)
    (v : α) : lookupKey (setKey l k v) k = some v := by
  induction l with
  | nil => simp [setKey, lookupKey]
  | cons hd tl ih =>
      obtain ⟨k', v'⟩ := hd
      by_cases h : k' = k
      · simp [setKey, lookupKey, h]
      · simp [setKey, lookupKey, h, ih]

theorem lookupKey_setKey_ne {α : Type} (l : List (String × α)) (k k' : String)
    (v : α) (h : k ≠ k') : lookupKey (setKey l k v) k' = lookupKey l k' := by
  induction l with
  | nil => simp [setKey, lookupKey, h]
  | cons hd tl ih =>
      obtain ⟨k₀, v₀⟩ := hd
      by_cases h₀ : k₀ = k
      · subst h₀
        simp [setKey, lookupKey, h]
      · simp [setKey, lookupKey, h₀, ih]

/-! ## Rate limiter (`app/utils/rate_limiter.py`)

`RateLimiter` keeps one JSON file with three tables keyed by user, PR and
repository.  `check_and_record` is one critical section: load, check the
three ceilings in order (user, PR, repository), and only if all pass
record the command, optionally compact, and save.  A rejection raises
`RateLimitExceeded` before anything is recorded, so the persisted store is
the one that was loaded.  We model the whole critical section as a pure
function from the loaded store to `(Option RateLimitExceeded, persisted
store)`; on rejection the second component is the input store, mirroring
that `_save_data` is never reached.
-/

/-- Exception data carried by `RateLimitExceeded` (`rate_limiter.py:19`). -/
structure RateLimitExceeded where
  limit_type : String
  limit : Nat
  window : String
deriving DecidableEq, Repr

/-- `str(e)` for a `RateLimitExceeded` (`rate_limiter.py:34`). -/
def RateLimitExceeded.message (e : RateLimitExceeded) : String :=
  e.limit_type ++ " rate limit exceeded: " ++ toString e.limit ++ " per " ++ e.window

/-- One entry of a per-user `commands` list: `{"command": ..., "timestamp": ...}`. -/
structure CmdRecord where
  command : String
  timestamp : Nat
deriving DecidableEq, Repr

/-- One entry of a per-PR `commands` list (also records the user). -/
structure PrCmdRecord where
  command : String
  timestamp : Nat
  user : String
deriving DecidableEq, Repr

/-- Value of `data["limits"]["per_user"][user]`. -/
structure UserData where
  commands : List CmdRecord
deriving DecidableEq, Repr

/-- Value of `data["limits"]["per_pr"][pr_key]`. -/
structure PrData where
  commands : List PrCmdRecord
  total_count : Nat
deriving DecidableEq, Repr

/-- Value of `data["limits"]["per_repo"][repo]`; `date` is the UTC day number. -/
structure RepoData where
  commands : List CmdRecord
  count_today : Nat
  date : Nat
deriving DecidableEq, Repr

/-- The rate-limit store (the `data` dictionary of `rate_limits.json`). -/
structure RateStore where
  last_cleanup : Nat
  per_user : List (String × UserData)
  per_pr : List (String × PrData)
  per_repo : List (String × RepoData)
deriving DecidableEq, Repr

/-- `_initialize_file` content: empty tables (`rate_limiter.py:121`). -/
def initialStore (now : Nat) : RateStore :=
  { last_cleanup := now, per_user := [], per_pr := [], per_repo := [] }

/-- `USER_LIMIT = 5` commands per hour. -/
def USER_LIMIT : Nat := 5
/-- `PR_LIMIT = 10` commands per PR, lifetime. -/
def PR_LIMIT : Nat := 10
/-- `REPO_LIMIT = 50` commands per day. -/
def REPO_LIMIT : Nat := 50
/-- `USER_WINDOW = timedelta(hours=1)` in seconds. -/
def USER_WINDOW : Nat := 3600
/-- `CLEANUP_INTERVAL = timedelta(hours=1)` in seconds. -/
def CLEANUP_INTERVAL : Nat := 3600

/-- UTC day number of an instant (`datetime.date().isoformat()` equality is
day-number equality). -/
def dayOf (t : Nat) : Nat := t / 86400

/-- `ts > now - USER_WINDOW`, rendered without truncated subtraction:
the command at `ts` is inside the trailing one-hour window at `now`. -/
def inWindow (now ts : Nat) : Bool := ts + USER_WINDOW > now

/-- `_count_user_commands` (`rate_limiter.py:280`): commands of `user`
whose timestamp is after `now - USER_WINDOW`, strictly. -/
def countUserCommands (s : RateStore) (user : String) (now : Nat) : Nat :=
  match lookupKey s.per_user user with
  | Option.none => 0
  | some ud => ud.commands.countP (fun c => inWindow now c.timestamp)

/-- `f"{repo}#{pr_number}"` (`rate_limiter.py:182`). -/
def prKey (repo : String) (pr_number : Nat) : String :=
  repo ++ "#" ++ toString pr_number

/-- `_count_pr_commands` (`rate_limiter.py:306`): the stored lifetime total. -/
def countPrCommands (s : RateStore) (key : String) : Nat :=
  match lookupKey s.per_pr key with
  | Option.none => 0
  | some pd => pd.total_count

/-- `_count_repo_commands` (`rate_limiter.py:320`): today's count, or 0 if
the stored date is a different day. -/
def countRepoCommands (s : RateStore) (repo : String) (now : Nat) : Nat :=
  match lookupKey s.per_repo repo with
  | Option.none => 0
  | some rd => if rd.date ≠ dayOf now then 0 else rd.count_today

/-- `_record_command` (`rate_limiter.py:340`): append to the user list,
append and increment for the PR, and append/increment for the repository
after resetting its counter when the stored date is not today. -/
def recordCommand (s : RateStore) (user repo : String) (pr_number : Nat)
    (command : String) (now : Nat) : RateStore :=
  let ud := (lookupKey s.per_user user).getD { commands := [] }
  let per_user' := setKey s.per_user user
    { commands := ud.commands ++ [{ command := command, timestamp := now }] }
  let key := prKey repo pr_number
  let pd := (lookupKey s.per_pr key).getD { commands := [], total_count := 0 }
  let per_pr' := setKey s.per_pr key
    { commands := pd.commands ++ [{ command := command, timestamp := now, user := user }],
      total_count := pd.total_count + 1 }
  let today := dayOf now
  let rd := (lookupKey s.per_repo repo).getD
    { commands := [], count_today := 0, date := today }
  let rd' := if rd.date ≠ today then
    { commands := ([] : List CmdRecord), count_today := 0, date := today }
  else rd
  let per_repo' := setKey s.per_repo repo
    { commands := rd'.commands ++ [{ command := command, timestamp := now }],
      count_today := rd'.count_today + 1, date := today }
  { s with per_user := per_user', per_pr := per_pr', per_repo := per_repo' }

/-- `_should_cleanup` (`rate_limiter.py:398`): more than an hour since the
last cleanup.  (`timedelta` comparison; a future `last_cleanup` compares
below the interval, as truncated `Nat` subtraction also does.) -/
def shouldCleanup (s : RateStore) (now : Nat) : Bool :=
  now - s.last_cleanup > CLEANUP_INTERVAL

/-- The per-user loop of `_cleanup_old_entries` (`rate_limiter.py:422`):
keep each user's in-window commands, deleting a user whose filtered list
is empty. -/
def cleanupUsers (now : Nat) : List (String × UserData) → List (String × UserData)
  | [] => []
  | (k, ud) :: rest =>
      let filtered := ud.commands.filter (fun c => inWindow now c.timestamp)
      if filtered.isEmpty then cleanupUsers now rest
      else (k, { commands := filtered }) :: cleanupUsers now rest

/-- `_cleanup_old_entries` (`rate_limiter.py:411`): drop out-of-window user
commands (removing a user left with none), drop repository entries whose
date is not today, stamp `last_cleanup`.  The `per_pr` table is untouched. -/
def cleanupOldEntries (s : RateStore) (now : Nat) : RateStore :=
  let per_user' := cleanupUsers now s.per_user
  let today := dayOf now
  let per_repo' := s.per_repo.filter (fun p => p.2.date = today)
  { last_cleanup := now, per_user := per_user', per_pr := s.per_pr,
    per_repo := per_repo' }

/-- `check_and_record` (`rate_limiter.py:134`): the whole critical section.
Returns the raised exception (if any) and the store that is persisted
afterwards; on rejection nothing is recorded or saved, so the persisted
store is the input store. -/
def checkAndRecord (s : RateStore) (user repo : String) (pr_number : Nat)
    (command : String) (now : Nat) : Option RateLimitExceeded × RateStore :=
  let user_count := countUserCommands s user now
  if user_count ≥ USER_LIMIT then
    (some { limit_type := "User", limit := USER_LIMIT, window := "hour" }, s)
  else
    let key := prKey repo pr_number
    let pr_count := countPrCommands s key
    if pr_count ≥ PR_LIMIT then
      (some { limit_type := "PR", limit := PR_LIMIT, window := "total" }, s)
    else
      let repo_count := countRepoCommands s repo now
      if repo_count ≥ REPO_LIMIT then
        (some { limit_type := "Repository", limit := REPO_LIMIT, window := "day" }, s)
      else
        let s₁ := recordCommand s user repo pr_number command now
        let s₂ := if shouldCleanup s₁ now then cleanupOldEntries s₁ now else s₁
        (Option.none, s₂)

/-- One `admit` attempt as seen by a caller of the limiter. -/
structure AdmitCall where
  user : String
  repo : String
  pr_number : Nat
  command : String
  time : Nat
deriving DecidableEq, Repr

/-- The store left behind by one `check_and_record` call (a rejected call
leaves the persisted store unchanged). -/
def admitStep (s : RateStore) (c : AdmitCall) : RateStore :=
  (checkAndRecord s c.user c.repo c.pr_number c.command c.time).2

/-- Fold a sequence of `admit` calls over the store. -/
def runCalls (s : RateStore) (calls : List AdmitCall) : RateStore :=
  calls.foldl admitStep s

/-- The time of the last call of a sequence (the start time for an empty
sequence). -/
def lastCallTime (t₀ : Nat) (calls : List AdmitCall) : Nat :=
  calls.foldl (fun _ c => c.time) t₀


/-! ### Rate-limiter lemmas -/

/-- A key absent from an association list's key set looks up to nothing. -/
theorem lookupKey_eq_none {α : Type} (l : List (String × α)) (u : String)
    (h : u ∉ l.map Prod.fst) : lookupKey l u = Option.none := by
  induction l with
  | nil => rfl
  | cons hd tl ih =>
      obtain ⟨k, v⟩ := hd
      simp only [List.map_cons, List.mem_cons] at h
      push_neg at h
      rw [lookupKey, if_neg (Ne.symm h.1)]
      exact ih h.2

/-- Keys of `setKey l k v` are keys of `l`, possibly extended by `k`. -/
theorem mem_keys_setKey {α : Type} (l : List (String × α)) (k x : String)
    (v : α) : x ∈ (setKey l k v).map Prod.fst → x ∈ l.map Prod.fst ∨ x = k := by
  induction l with
  | nil =>
      intro h
      simpa [setKey] using h
  | cons hd tl ih =>
      obtain ⟨k₀, v₀⟩ := hd
      by_cases h₀ : k₀ = k
      · intro h
        simp only [setKey, h₀, if_true, List.map_cons, List.mem_cons] at h
        rcases h with h | h
        · exact Or.inr h
        · exact Or.inl (List.mem_cons_of_mem _ h)
      · intro h
        simp only [setKey, h₀, if_false, List.map_cons, List.mem_cons] at h
        rcases h with h | h
        · exact Or.inl (by simp [h])
        · rcases ih h with h' | h'
          · exact Or.inl (List.mem_cons_of_mem _ h')
          · exact Or.inr h'

/-- `setKey` preserves distinctness of keys. -/
theorem nodup_keys_setKey {α : Type} (l : List (String × α)) (k : String)
    (v : α) : (l.map Prod.fst).Nodup → ((setKey l k v).map Prod.fst).Nodup := by
  induction l with
  | nil =>
      intro
      simp [setKey]
  | cons hd tl ih =>
      obtain ⟨k₀, v₀⟩ := hd
      intro h
      simp only [List.map_cons, List.nodup_cons] at h
      by_cases h₀ : k₀ = k
      · subst h₀
        simp only [setKey, if_true, List.map_cons, List.nodup_cons]
        exact h
      · simp only [setKey, h₀, if_false, List.map_cons, List.nodup_cons]
        refine ⟨fun hmem => ?_, ih h.2⟩
        rcases mem_keys_setKey tl k k₀ v hmem with h' | h'
        · exact h.1 h'
        · exact h₀ h'

/-- Keys surviving `cleanupUsers` were keys before. -/
theorem mem_keys_cleanupUsers (t : Nat) (l : List (String × UserData))
    (x : String) : x ∈ (cleanupUsers t l).map Prod.fst → x ∈ l.map Prod.fst := by
  induction l with
  | nil =>
      intro h
      simp [cleanupUsers] at h
  | cons hd tl ih =>
      obtain ⟨k, ud⟩ := hd
      intro h
      by_cases hf : (ud.commands.filter (fun c => inWindow t c.timestamp)).isEmpty
      · rw [cleanupUsers] at h
        simp only [hf, if_true] at h
        exact List.mem_cons_of_mem _ (ih h)
      · rw [cleanupUsers] at h
        simp only [hf, if_false, Bool.false_eq_true, List.map_cons, List.mem_cons] at h
        rcases h with h | h
        · simp [h]
        · exact List.mem_cons_of_mem _ (ih h)

/-- `cleanupUsers` preserves distinctness of keys. -/
theorem nodup_keys_cleanupUsers (t : Nat) (l : List (String × UserData)) :
    (l.map Prod.fst).Nodup → ((cleanupUsers t l).map Prod.fst).Nodup := by
  induction l with
  | nil =>
      intro
      simp [cleanupUsers]
  | cons hd tl ih =>
      obtain ⟨k, ud⟩ := hd
      intro h
      simp only [List.map_cons, List.nodup_cons] at h
      by_cases hf : (ud.commands.filter (fun c => inWindow t c.timestamp)).isEmpty
      · rw [cleanupUsers]
        simp only [hf, if_true]
        exact ih h.2
      · rw [cleanupUsers]
        simp only [hf, if_false, Bool.false_eq_true, List.map_cons, List.nodup_cons]
        exact ⟨fun hmem => h.1 (mem_keys_cleanupUsers t tl k hmem), ih h.2⟩

/-- Well-formedness of the store as a set of dictionaries: keys are
distinct (true of every store a Python `dict` can denote). -/
def RateStore.WF (s : RateStore) : Prop :=
  (s.per_user.map Prod.fst).Nodup

theorem initialStore_WF (t : Nat) : (initialStore t).WF := by
  simp [initialStore, RateStore.WF]

theorem recordCommand_WF (s : RateStore) (u r : String) (p : Nat)
    (cmd : String) (t : Nat) (h : s.WF) :
    (recordCommand s u r p cmd t).WF :=
  nodup_keys_setKey _ _ _ h

theorem cleanupOldEntries_WF (s : RateStore) (t : Nat) (h : s.WF) :
    (cleanupOldEntries s t).WF :=
  nodup_keys_cleanupUsers _ _ h

theorem admitStep_WF (s : RateStore) (c : AdmitCall) (h : s.WF) :
    (admitStep s c).WF := by
  unfold admitStep checkAndRecord
  by_cases h₁ : countUserCommands s c.user c.time ≥ USER_LIMIT
  · simpa [h₁] using h
  · by_cases h₂ : countPrCommands s (prKey c.repo c.pr_number) ≥ PR_LIMIT
    · simpa [h₁, h₂] using h
    · by_cases h₃ : countRepoCommands s c.repo c.time ≥ REPO_LIMIT
      · simpa [h₁, h₂, h₃] using h
      · have hrec := recordCommand_WF s c.user c.repo c.pr_number c.command c.time h
        by_cases h₄ : shouldCleanup (recordCommand s c.user c.repo c.pr_number c.command c.time) c.time
        · simpa [h₁, h₂, h₃, h₄] using cleanupOldEntries_WF _ _ hrec
        · simpa [h₁, h₂, h₃, h₄] using hrec

/-- Moving the evaluation instant later can only drop commands from the
trailing window: the in-window count is antitone in `now`. -/
theorem countUserCommands_anti (s : RateStore) (u : String) {t t' : Nat}
    (h : t ≤ t') : countUserCommands s u t' ≤ countUserCommands s u t := by
  unfold countUserCommands
  cases lookupKey s.per_user u with
  | none => exact Nat.le_refl 0
  | some ud =>
      apply List.countP_mono_left
      intro c _ hc
      simp only [inWindow, USER_WINDOW, decide_eq_true_eq] at hc ⊢
      omega

/-- Recording a command for `cu` at time `t` raises `cu`'s in-window count
at `t` by one and leaves every other user's count unchanged. -/
theorem countUserCommands_recordCommand (s : RateStore) (cu r : String)
    (p : Nat) (cmd : String) (t : Nat) (u : String) :
    countUserCommands (recordCommand s cu r p cmd t) u t =
      countUserCommands s u t + (if u = cu then 1 else 0) := by
  have hwin : inWindow t t = true := by
    simp only [inWindow, USER_WINDOW, decide_eq_true_eq]
    omega
  unfold countUserCommands recordCommand
  by_cases h : u = cu
  · subst h
    rw [lookupKey_setKey_self]
    cases hl : lookupKey s.per_user u with
    | none =>
        simp [hl, List.countP_append, List.countP_cons, hwin]
    | some ud =>
        simp [hl, List.countP_append, List.countP_cons, hwin]
  · rw [lookupKey_setKey_ne _ _ _ _ (fun hh => h hh.symm)]
    simp [h]

/-- The in-window count, as a function of a per-user table alone
(`countUserCommands` reads nothing else of the store). -/
def countIn (l : List (String × UserData)) (u : String) (t : Nat) : Nat :=
  match lookupKey l u with
  | Option.none => 0
  | some ud => ud.commands.countP (fun c => inWindow t c.timestamp)

theorem countUserCommands_eq_countIn (s : RateStore) (u : String) (t : Nat) :
    countUserCommands s u t = countIn s.per_user u t := rfl

/-- On a table with distinct user keys, cleanup filters each user's list
with the very predicate used for counting and deletes users left with no
in-window command, so no in-window count at the cleanup instant changes. -/
theorem countIn_cleanupUsers (t : Nat) (l : List (String × UserData))
    (u : String) (hnd : (l.map Prod.fst).Nodup) :
    countIn (cleanupUsers t l) u t = countIn l u t := by
  induction l with
  | nil => simp [cleanupUsers]
  | cons hd tl ih =>
      obtain ⟨k, ud⟩ := hd
      simp only [List.map_cons, List.nodup_cons] at hnd
      by_cases hf : (ud.commands.filter (fun c => inWindow t c.timestamp)).isEmpty
      · rw [cleanupUsers]
        simp only [hf, if_true]
        by_cases hk : k = u
        · subst hk
          have h₁ : lookupKey (cleanupUsers t tl) k = Option.none :=
            lookupKey_eq_none _ _ (fun hmem => hnd.1 (mem_keys_cleanupUsers t tl k hmem))
          have h₂ : ud.commands.countP (fun c => inWindow t c.timestamp) = 0 := by
            rw [List.countP_eq_length_filter, List.isEmpty_iff.mp hf]
            rfl
          rw [countIn, h₁, countIn, lookupKey, if_pos rfl]
          simp [h₂]
        · rw [countIn, countIn, lookupKey, if_neg hk]
          exact ih hnd.2
      · rw [cleanupUsers]
        simp only [hf, if_false, Bool.false_eq_true]
        by_cases hk : k = u
        · subst hk
          rw [countIn, countIn, lookupKey, if_pos rfl, lookupKey, if_pos rfl]
          simp only
          rw [List.countP_filter]
          congr 1
          funext c
          rw [Bool.and_self]
        · rw [countIn, countIn, lookupKey, if_neg hk, lookupKey, if_neg hk]
          exact ih hnd.2

theorem countUserCommands_cleanup (s : RateStore) (u : String) (t : Nat)
    (h : s.WF) :
    countUserCommands (cleanupOldEntries s t) u t = countUserCommands s u t := by
  rw [countUserCommands_eq_countIn, countUserCommands_eq_countIn]
  exact countIn_cleanupUsers t s.per_user u h

/-- The user check comes first in `check_and_record`: a window already at
the ceiling is rejected with the User tier, recording nothing. -/
theorem checkAndRecord_user_reject (s : RateStore) (u r : String) (p : Nat)
    (cmd : String) (t : Nat) (h : countUserCommands s u t ≥ USER_LIMIT) :
    checkAndRecord s u r p cmd t =
      (some { limit_type := "User", limit := USER_LIMIT, window := "hour" }, s) := by
  unfold checkAndRecord
  simp [h]

/-- One admit call never lifts an actor's in-window count at the call
instant above the ceiling. -/
theorem countUserCommands_admitStep_le (s : RateStore) (c : AdmitCall)
    (u : String) (hwf : s.WF)
    (h : countUserCommands s u c.time ≤ USER_LIMIT) :
    countUserCommands (admitStep s c) u c.time ≤ USER_LIMIT := by
  unfold admitStep checkAndRecord
  by_cases h₁ : countUserCommands s c.user c.time ≥ USER_LIMIT
  · simpa [h₁] using h
  · by_cases h₂ : countPrCommands s (prKey c.repo c.pr_number) ≥ PR_LIMIT
    · simpa [h₁, h₂] using h
    · by_cases h₃ : countRepoCommands s c.repo c.time ≥ REPO_LIMIT
      · simpa [h₁, h₂, h₃] using h
      · have hrecwf := recordCommand_WF s c.user c.repo c.pr_number c.command c.time hwf
        have hbound : countUserCommands
            (recordCommand s c.user c.repo c.pr_number c.command c.time) u c.time ≤
            USER_LIMIT := by
          rw [countUserCommands_recordCommand]
          by_cases hu : u = c.user
          · subst hu
            simp [USER_LIMIT] at h₁ ⊢
            omega
          · simp only [hu, if_false]
            simpa using h
        by_cases h₄ : shouldCleanup
            (recordCommand s c.user c.repo c.pr_number c.command c.time) c.time
        · simp only [h₁, h₂, h₃, h₄, if_false, if_true, ge_iff_le, not_le] at *
          simpa [countUserCommands_cleanup _ _ _ hrecwf] using hbound
        · simp only [h₁, h₂, h₃, h₄, if_false, if_true, ge_iff_le, not_le] at *
          simpa using hbound

/-- Folding any nondecreasing-in-time sequence of admit calls keeps an
actor's in-window count at the ceiling or below, measured at the moment of
the latest call. -/
theorem countUserCommands_runCalls_le (calls : List AdmitCall) :
    ∀ (s : RateStore) (t₀ : Nat) (u : String), s.WF →
    countUserCommands s u t₀ ≤ USER_LIMIT →
    List.Chain (fun a b => a ≤ b) t₀ (calls.map AdmitCall.time) →
    countUserCommands (runCalls s calls) u (lastCallTime t₀ calls) ≤ USER_LIMIT := by
  induction calls with
  | nil =>
      intro s t₀ u _ h _
      simpa [runCalls, lastCallTime] using h
  | cons c rest ih =>
      intro s t₀ u hwf h hchain
      simp only [List.map_cons, List.chain_cons] at hchain
      have h₁ : countUserCommands s u c.time ≤ USER_LIMIT :=
        le_trans (countUserCommands_anti s u hchain.1) h
      have h₂ := countUserCommands_admitStep_le s c u hwf h₁
      have hwf' := admitStep_WF s c hwf
      simpa [runCalls, lastCallTime] using
        ih (admitStep s c) c.time u hwf' h₂ hchain.2

/-! ### Claim C1 -/

/-- **C1.** For every sequence of admit calls (`RateLimiter.check_and_record`)
made at nondecreasing times, an actor's count of recorded events inside the
trailing one-hour window — measured at the latest call — never exceeds the
actor ceiling of 5; and a call made when the window already holds 5 events
is rejected with a `RateLimitExceeded` carrying the actor (`User`) tier,
its ceiling 5 and window `"hour"`, leaving the store unchanged. -/
theorem c1_actor_window_never_exceeds_ceiling
    (s : RateStore) (t₀ : Nat) (u : String) (calls : List AdmitCall)
    (r : String) (p : Nat) (cmd : String) (t : Nat)
    (hwf : s.WF) (h0 : countUserCommands s u t₀ ≤ USER_LIMIT)
    (hchain : List.Chain (fun a b => a ≤ b) t₀ (calls.map AdmitCall.time)) :
    countUserCommands (runCalls s calls) u (lastCallTime t₀ calls) ≤ USER_LIMIT ∧
    (countUserCommands (runCalls s calls) u t ≥ USER_LIMIT →
      checkAndRecord (runCalls s calls) u r p cmd t =
        (some { limit_type := "User", limit := USER_LIMIT, window := "hour" },
         runCalls s calls)) :=
  ⟨countUserCommands_runCalls_le calls s t₀ u hwf h0 hchain,
   fun h => checkAndRecord_user_reject _ u r p cmd t h⟩

/-- Five admit calls by one actor inside one hour. -/
def c1calls : List AdmitCall :=
  [{ user := "alice", repo := "octo/repo", pr_number := 1, command := "review", time := 0 },
   { user := "alice", repo := "octo/repo", pr_number := 1, command := "review", time := 1 },
   { user := "alice", repo := "octo/repo", pr_number := 1, command := "review", time := 2 },
   { user := "alice", repo := "octo/repo", pr_number := 1, command := "review", time := 3 },
   { user := "alice", repo := "octo/repo", pr_number := 1, command := "review", time := 4 }]

theorem c1_actor_window_witness :
    checkAndRecord (runCalls (initialStore 0) c1calls) "alice" "octo/repo" 1 "review" 5 =
      (some { limit_type := "User", limit := USER_LIMIT, window := "hour" },
       runCalls (initialStore 0) c1calls) :=
  (c1_actor_window_never_exceeds_ceiling (initialStore 0) 0 "alice" c1calls
    "octo/repo" 1 "review" 5 (initialStore_WF 0) (by decide)
    (by simp [c1calls, List.chain_cons])).2 (by decide)

/-! ### Claim C2 -/

/-- **C2.** Whenever any of the three counters (actor, target, origin) is at
or above its ceiling, `check_and_record` rejects with an exception carrying
a genuinely-failing tier's name, configured ceiling and window description,
and the persisted store is exactly the input store: the rejected attempt is
recorded in none of the three counters. -/
theorem c2_rejection_names_tier_and_records_nothing
    (s : RateStore) (u r : String) (p : Nat) (cmd : String) (t : Nat)
    (h : countUserCommands s u t ≥ USER_LIMIT ∨
         countPrCommands s (prKey r p) ≥ PR_LIMIT ∨
         countRepoCommands s r t ≥ REPO_LIMIT) :
    (checkAndRecord s u r p cmd t).2 = s ∧
    ∃ e, (checkAndRecord s u r p cmd t).1 = some e ∧
      ((e = { limit_type := "User", limit := USER_LIMIT, window := "hour" } ∧
          countUserCommands s u t ≥ USER_LIMIT) ∨
       (e = { limit_type := "PR", limit := PR_LIMIT, window := "total" } ∧
          countPrCommands s (prKey r p) ≥ PR_LIMIT) ∨
       (e = { limit_type := "Repository", limit := REPO_LIMIT, window := "day" } ∧
          countRepoCommands s r t ≥ REPO_LIMIT)) := by
  unfold checkAndRecord
  by_cases h₁ : countUserCommands s u t ≥ USER_LIMIT
  · refine ⟨by simp [h₁], ?_⟩
    exact ⟨_, by simp [h₁], Or.inl ⟨rfl, h₁⟩⟩
  · by_cases h₂ : countPrCommands s (prKey r p) ≥ PR_LIMIT
    · refine ⟨by simp [h₁, h₂], ?_⟩
      exact ⟨_, by simp [h₁, h₂], Or.inr (Or.inl ⟨rfl, h₂⟩)⟩
    · have h₃ : countRepoCommands s r t ≥ REPO_LIMIT := by tauto
      refine ⟨by simp [h₁, h₂, h₃], ?_⟩
      exact ⟨_, by simp [h₁, h₂, h₃], Or.inr (Or.inr ⟨rfl, h₃⟩)⟩

/-- A store whose repository counter for `octo/repo` sits at its ceiling
today (day 0), with actor and target tiers clear. -/
def c2store : RateStore :=
  { last_cleanup := 0, per_user := [], per_pr := [],
    per_repo := [("octo/repo",
      { commands := [], count_today := 50, date := 0 })] }

theorem c2_rejection_witness :
    (checkAndRecord c2store "bob" "octo/repo" 1 "review" 10).2 = c2store ∧
    ∃ e, (checkAndRecord c2store "bob" "octo/repo" 1 "review" 10).1 = some e ∧
      ((e = { limit_type := "User", limit := USER_LIMIT, window := "hour" } ∧
          countUserCommands c2store "bob" 10 ≥ USER_LIMIT) ∨
       (e = { limit_type := "PR", limit := PR_LIMIT, window := "total" } ∧
          countPrCommands c2store (prKey "octo/repo" 1) ≥ PR_LIMIT) ∨
       (e = { limit_type := "Repository", limit := REPO_LIMIT, window := "day" } ∧
          countRepoCommands c2store "octo/repo" 10 ≥ REPO_LIMIT)) :=
  c2_rejection_names_tier_and_records_nothing c2store "bob" "octo/repo" 1 "review" 10
    (by decide)

/-! ### Claim C10 -/

/-- **C10.** `check_and_record` evaluates the tiers in the fixed order
actor/User, then target/PR, then origin/Repository: the raised rejection is
always the earliest tier at or above its ceiling in that order — in
particular it reports the User tier whenever the user counter is at
ceiling, regardless of the PR and repository counters. -/
theorem c10_tier_check_order
    (s : RateStore) (u r : String) (p : Nat) (cmd : String) (t : Nat) :
    (checkAndRecord s u r p cmd t).1 =
      (if countUserCommands s u t ≥ USER_LIMIT then
         some { limit_type := "User", limit := USER_LIMIT, window := "hour" }
       else if countPrCommands s (prKey r p) ≥ PR_LIMIT then
         some { limit_type := "PR", limit := PR_LIMIT, window := "total" }
       else if countRepoCommands s r t ≥ REPO_LIMIT then
         some { limit_type := "Repository", limit := REPO_LIMIT, window := "day" }
       else Option.none) := by
  unfold checkAndRecord
  by_cases h₁ : countUserCommands s u t ≥ USER_LIMIT
  · simp [h₁]
  · by_cases h₂ : countPrCommands s (prKey r p) ≥ PR_LIMIT
    · simp [h₁, h₂]
    · by_cases h₃ : countRepoCommands s r t ≥ REPO_LIMIT
      · simp [h₁, h₂, h₃]
      · simp [h₁, h₂, h₃]

/-! ### Claim C6 -/

/-- Recording raises exactly the recorded pair's lifetime total by one. -/
theorem countPrCommands_recordCommand (s : RateStore) (u r : String)
    (p : Nat) (cmd : String) (t : Nat) (k : String) :
    countPrCommands (recordCommand s u r p cmd t) k =
      countPrCommands s k + (if k = prKey r p then 1 else 0) := by
  unfold countPrCommands recordCommand
  by_cases h : k = prKey r p
  · rw [h, lookupKey_setKey_self]
    cases hl : lookupKey s.per_pr (prKey r p) with
    | none => simp [hl, h]
    | some pd => simp [hl, h]
  · rw [lookupKey_setKey_ne _ _ _ _ (fun hh => h hh.symm)]
    simp [h]

/-- The compaction pass never touches the per-PR table. -/
theorem cleanupOldEntries_per_pr (s : RateStore) (t : Nat) :
    (cleanupOldEntries s t).per_pr = s.per_pr := rfl

/-- A pair's lifetime total never decreases across an admit call, whether
it is admitted, rejected, or triggers a cleanup pass. -/
theorem countPrCommands_admitStep_mono (s : RateStore) (c : AdmitCall)
    (k : String) : countPrCommands s k ≤ countPrCommands (admitStep s c) k := by
  unfold admitStep checkAndRecord
  by_cases h₁ : countUserCommands s c.user c.time ≥ USER_LIMIT
  · simp [h₁]
  · by_cases h₂ : countPrCommands s (prKey c.repo c.pr_number) ≥ PR_LIMIT
    · simp [h₁, h₂]
    · by_cases h₃ : countRepoCommands s c.repo c.time ≥ REPO_LIMIT
      · simp [h₁, h₂, h₃]
      · have hrec := countPrCommands_recordCommand s c.user c.repo c.pr_number
          c.command c.time k
        have hcl : countPrCommands (cleanupOldEntries
            (recordCommand s c.user c.repo c.pr_number c.command c.time) c.time) k =
            countPrCommands (recordCommand s c.user c.repo c.pr_number c.command c.time) k := by
          unfold countPrCommands
          rw [cleanupOldEntries_per_pr]
        by_cases h₄ : shouldCleanup
            (recordCommand s c.user c.repo c.pr_number c.command c.time) c.time
        · simp only [h₁, h₂, h₃, h₄, if_false, if_true, ge_iff_le, not_le,
            Bool.false_eq_true, Bool.true_eq_false, hcl, hrec]
          split <;> omega
        · simp only [h₁, h₂, h₃, h₄, if_false, if_true, ge_iff_le, not_le,
            Bool.false_eq_true, Bool.true_eq_false, hcl, hrec]
          split <;> omega

/-- **C6 (amended).** The target (per-PR) ceiling is a lifetime cap with no
reset: once a pair's lifetime total is at the ceiling of 10, every later
admit call for that pair is rejected and the store is left unchanged —
with the target (`PR`) tier reported whenever the caller's actor counter is
below its own ceiling — at any later time; cleanup passes never evict or
shrink target counters, and no admit call ever lowers a pair's total. -/
theorem c6_target_ceiling_is_lifetime
    (s : RateStore) (u r : String) (p : Nat) (cmd : String) (t : Nat)
    (c : AdmitCall) (k : String)
    (h : countPrCommands s (prKey r p) ≥ PR_LIMIT) :
    ((checkAndRecord s u r p cmd t).1.isSome ∧
     (checkAndRecord s u r p cmd t).2 = s) ∧
    (countUserCommands s u t < USER_LIMIT →
      (checkAndRecord s u r p cmd t).1 =
        some { limit_type := "PR", limit := PR_LIMIT, window := "total" }) ∧
    (cleanupOldEntries s t).per_pr = s.per_pr ∧
    countPrCommands s k ≤ countPrCommands (admitStep s c) k := by
  refine ⟨?_, ?_, cleanupOldEntries_per_pr s t, countPrCommands_admitStep_mono s c k⟩
  · unfold checkAndRecord
    by_cases h₁ : countUserCommands s u t ≥ USER_LIMIT
    · simp [h₁]
    · simp [h₁, h]
  · intro hu
    have h₁ : ¬ countUserCommands s u t ≥ USER_LIMIT := not_le.mpr hu
    unfold checkAndRecord
    simp [h₁, h]

/-- Fifteen admitted calls: ten distinct users saturate the pair
`octo/repo#1`, then `bob` makes five admitted calls against PR 2. -/
def c6calls : List AdmitCall :=
  [{ user := "u0", repo := "octo/repo", pr_number := 1, command := "review", time := 0 },
   { user := "u1", repo := "octo/repo", pr_number := 1, command := "review", time := 0 },
   { user := "u2", repo := "octo/repo", pr_number := 1, command := "review", time := 0 },
   { user := "u3", repo := "octo/repo", pr_number := 1, command := "review", time := 0 },
   { user := "u4", repo := "octo/repo", pr_number := 1, command := "review", time := 0 },
   { user := "u5", repo := "octo/repo", pr_number := 1, command := "review", time := 0 },
   { user := "u6", repo := "octo/repo", pr_number := 1, command := "review", time := 0 },
   { user := "u7", repo := "octo/repo", pr_number := 1, command := "review", time := 0 },
   { user := "u8", repo := "octo/repo", pr_number := 1, command := "review", time := 0 },
   { user := "u9", repo := "octo/repo", pr_number := 1, command := "review", time := 0 },
   { user := "bob", repo := "octo/repo", pr_number := 2, command := "review", time := 0 },
   { user := "bob", repo := "octo/repo", pr_number := 2, command := "review", time := 0 },
   { user := "bob", repo := "octo/repo", pr_number := 2, command := "review", time := 0 },
   { user := "bob", repo := "octo/repo", pr_number := 2, command := "review", time := 0 },
   { user := "bob", repo := "octo/repo", pr_number := 2, command := "review", time := 0 }]

/-- **C6 is false as stated**: after ten admitted calls for `octo/repo#1`,
a later admit call for that pair by `bob` — whose own actor window is also
full — is rejected with the `User` tier, not the target/`PR` tier. -/
theorem c6_counterexample_user_tier_preempts :
    countPrCommands (runCalls (initialStore 0) c6calls) (prKey "octo/repo" 1) =
      PR_LIMIT ∧
    (checkAndRecord (runCalls (initialStore 0) c6calls)
        "bob" "octo/repo" 1 "review" 1).1 =
      some { limit_type := "User", limit := USER_LIMIT, window := "hour" } ∧
    ({ limit_type := "User", limit := USER_LIMIT, window := "hour" } :
        RateLimitExceeded) ≠
      { limit_type := "PR", limit := PR_LIMIT, window := "total" } := by
  refine ⟨by decide, by decide, by decide⟩

/-- A store with the pair `octo/repo#9` at its lifetime ceiling. -/
def c6store : RateStore :=
  { last_cleanup := 0, per_user := [], per_repo := [],
    per_pr := [("octo/repo#9", { commands := [], total_count := 10 })] }

theorem c6_target_ceiling_witness :
    (((checkAndRecord c6store "carol" "octo/repo" 9 "review" 999999).1.isSome ∧
      (checkAndRecord c6store "carol" "octo/repo" 9 "review" 999999).2 = c6store) ∧
     (countUserCommands c6store "carol" 999999 < USER_LIMIT →
       (checkAndRecord c6store "carol" "octo/repo" 9 "review" 999999).1 =
         some { limit_type := "PR", limit := PR_LIMIT, window := "total" }) ∧
     (cleanupOldEntries c6store 999999).per_pr = c6store.per_pr ∧
     countPrCommands c6store "octo/repo#9" ≤
       countPrCommands (admitStep c6store
         { user := "dave", repo := "octo/repo", pr_number := 9,
           command := "review", time := 999999 }) "octo/repo#9") ∧
    (checkAndRecord c6store "carol" "octo/repo" 9 "review" 999999).1 =
      some { limit_type := "PR", limit := PR_LIMIT, window := "total" } := by
  have h := c6_target_ceiling_is_lifetime c6store "carol" "octo/repo" 9 "review"
    999999
    { user := "dave", repo := "octo/repo", pr_number := 9,
      command := "review", time := 999999 }
    "octo/repo#9" (by decide)
  exact ⟨h, h.2.1 (by decide)⟩

/-! ### Claim C7 -/

/-- A binding whose value satisfies the filter predicate survives a
`filter` and is still found first. -/
theorem lookupKey_filter {α : Type} (l : List (String × α))
    (p : String × α → Bool) (k : String) (v : α)
    (h : lookupKey l k = some v) (hp : p (k, v) = true) :
    lookupKey (l.filter p) k = some v := by
  induction l with
  | nil => simp [lookupKey] at h
  | cons hd tl ih =>
      obtain ⟨k₀, v₀⟩ := hd
      by_cases hk : k₀ = k
      · subst hk
        rw [lookupKey, if_pos rfl] at h
        obtain rfl : v₀ = v := Option.some.inj h
        rw [List.filter_cons, if_pos hp, lookupKey, if_pos rfl]
      · rw [lookupKey, if_neg hk] at h
        rw [List.filter_cons]
        by_cases hq : p (k₀, v₀) = true
        · rw [if_pos hq, lookupKey, if_neg hk]
          exact ih h
        · rw [if_neg hq]
          exact ih h

/-- **C7.** The origin (per-repository) counter resets exactly at the
calendar-day boundary: for an origin whose stored record carries day `d`
and any count below the ceiling, an admit call on day `d + 1` (with the
actor and target tiers clear) is admitted, and the store afterwards holds
count 1 for that origin with the new day — the old day's count does not
carry over. -/
theorem c7_origin_resets_at_day_boundary
    (s : RateStore) (u r : String) (p : Nat) (cmd : String) (t d : Nat)
    (rd : RepoData)
    (hrepo : lookupKey s.per_repo r = some rd)
    (hdate : rd.date = d) (hcount : rd.count_today < REPO_LIMIT)
    (hday : dayOf t = d + 1)
    (huser : countUserCommands s u t < USER_LIMIT)
    (hpr : countPrCommands s (prKey r p) < PR_LIMIT) :
    (checkAndRecord s u r p cmd t).1 = Option.none ∧
    lookupKey (checkAndRecord s u r p cmd t).2.per_repo r =
      some { commands := [{ command := cmd, timestamp := t }],
             count_today := 1, date := dayOf t } := by
  have h₁ : ¬ countUserCommands s u t ≥ USER_LIMIT := not_le.mpr huser
  have h₂ : ¬ countPrCommands s (prKey r p) ≥ PR_LIMIT := not_le.mpr hpr
  have hne : rd.date ≠ dayOf t := by omega
  have h₃ : countRepoCommands s r t = 0 := by
    unfold countRepoCommands
    rw [hrepo]
    simp [hne]
  have h₃' : ¬ countRepoCommands s r t ≥ REPO_LIMIT := by
    rw [h₃]
    simp [REPO_LIMIT]
  have hrec : lookupKey (recordCommand s u r p cmd t).per_repo r =
      some { commands := [{ command := cmd, timestamp := t }],
             count_today := 1, date := dayOf t } := by
    unfold recordCommand
    simp only [hrepo, Option.getD_some]
    rw [if_pos hne]
    exact lookupKey_setKey_self ..
  unfold checkAndRecord
  simp only [h₁, h₂, h₃', if_false, if_true, ge_iff_le, not_le]
  by_cases h₄ : shouldCleanup (recordCommand s u r p cmd t) t
  · constructor
    · simp [h₁, h₂, h₃', h₄]
    · have : lookupKey (cleanupOldEntries (recordCommand s u r p cmd t) t).per_repo r =
          some { commands := [{ command := cmd, timestamp := t }],
                 count_today := 1, date := dayOf t } := by
        unfold cleanupOldEntries
        exact lookupKey_filter _ _ _ _ hrec (by simp)
      simp only [h₄, if_true]
      simpa [h₁, h₂, h₃', h₄] using this
  · constructor
    · simp [h₁, h₂, h₃', h₄]
    · simpa [h₁, h₂, h₃', h₄] using hrec

/-- A store where `octo/repo` made 49 admitted calls on day 0. -/
def c7store : RateStore :=
  { last_cleanup := 0, per_user := [], per_pr := [],
    per_repo := [("octo/repo",
      { commands := [], count_today := 49, date := 0 })] }

theorem c7_origin_reset_witness :
    (checkAndRecord c7store "erin" "octo/repo" 3 "review" 86400).1 =
        Option.none ∧
    lookupKey (checkAndRecord c7store "erin" "octo/repo" 3 "review"
        86400).2.per_repo "octo/repo" =
      some { commands := [{ command := "review", timestamp := 86400 }],
             count_today := 1, date := dayOf 86400 } :=
  c7_origin_resets_at_day_boundary c7store "erin" "octo/repo" 3 "review" 86400 0
    { commands := [], count_today := 49, date := 0 }
    (by decide) (by decide) (by decide) (by decide) (by decide) (by decide)

/-! ## Python values and the `WorkflowState` dictionary (`app/agents/state.py`)

`WorkflowState` is a `TypedDict`: at runtime a plain `dict` from string
keys to arbitrary Python values.  `PyVal` models those values; a state is
a `List (String × PyVal)` with the dictionary semantics of `lookupKey` /
`setKey`.  Python floats are modelled as exact rationals: none of the
claims below depends on rounding.

To settle the immutability claims we also track object identity: a
`StateObj` is a dict value together with the identity (`oid`) of the dict
object holding it.  `deepcopy` allocates a fresh object (a caller-supplied
`fresh` id, distinct from every live id); an in-place item assignment
(`state[k] = v`) keeps the object id and changes the value under it. -/

inductive PyVal where
  | none
  | bool (b : Bool)
  | int (n : Int)
  | float (q : Rat)
  | str (s : String)
  | list (xs : List PyVal)
  | dict (entries : List (String × PyVal))

/-- Python truthiness (`if x:`) for the modelled values. -/
def pyTruthy : PyVal → Bool
  | PyVal.none => false
  | PyVal.bool b => b
  | PyVal.int n => n ≠ 0
  | PyVal.float q => q ≠ 0
  | PyVal.str s => s ≠ ""
  | PyVal.list xs => ¬ xs.isEmpty
  | PyVal.dict d => ¬ d.isEmpty

/-- `d.get(k, dflt)`. -/
def getDefault (d : List (String × PyVal)) (k : String) (dflt : PyVal) : PyVal :=
  (lookupKey d k).getD dflt

/-- A Python dict object: its identity and the value it currently holds. -/
structure StateObj where
  oid : Nat
  val : List (String × PyVal)

/-- `create_initial_workflow_state` (`state.py:113`).  `**extra_pr_data`
entries override the base `pr_data` keys, as in a `{**base, **extra}`
merge; `files or []` resolves a missing/empty list to `[]`. -/
def create_initial_workflow_state (repo_name : String) (pr_number : Int)
    (diff : String) (files : Option (List PyVal))
    (extra_pr_data : List (String × PyVal)) (now : String) :
    List (String × PyVal) :=
  let base : List (String × PyVal) :=
    [("repo_name", PyVal.str repo_name), ("pr_number", PyVal.int pr_number),
     ("diff", PyVal.str diff), ("files", PyVal.list (files.getD []))]
  [("pr_data", PyVal.dict (extra_pr_data.foldl (fun acc kv => setKey acc kv.1 kv.2) base)),
   ("review_results", PyVal.list []),
   ("current_step", PyVal.str "initialized"),
   ("error", PyVal.none),
   ("metadata", PyVal.dict
     [("created_at", PyVal.str now), ("updated_at", PyVal.str now),
      ("total_cost_usd", PyVal.float 0), ("total_tokens", PyVal.int 0),
      ("model_calls", PyVal.int 0)])]

/-- `new_state["metadata"]["updated_at"] = ...` guarded by
`if "metadata" in new_state` (`state.py:178`).  When the key is present but
holds a non-dict, Python raises `TypeError`; every state the library
builds holds a dict there, and the theorems below assume as much. -/
def refreshUpdatedAt (d : List (String × PyVal)) (now : String) :
    List (String × PyVal) :=
  match lookupKey d "metadata" with
  | some (PyVal.dict m) =>
      setKey d "metadata" (PyVal.dict (setKey m "updated_at" (PyVal.str now)))
  | _ => d

/-- The kwargs loop of `update_state` (`state.py:182`): apply an update
only when its key already exists. -/
def applyKwargs (d : List (String × PyVal))
    (kwargs : List (String × PyVal)) : List (String × PyVal) :=
  kwargs.foldl
    (fun acc kv => if (lookupKey acc kv.1).isSome then setKey acc kv.1 kv.2 else acc) d

/-- `update_state` (`state.py:154`): deep-copy the state (a fresh dict
object — `fresh` is the id the copy is allocated at), refresh
`metadata["updated_at"]`, then apply exactly those keyword updates whose
key already exists. -/
def update_state (fresh : Nat) (s : StateObj)
    (kwargs : List (String × PyVal)) (now : String) : StateObj :=
  { oid := fresh, val := applyKwargs (refreshUpdatedAt s.val now) kwargs }

/-- `add_review_finding` (`state.py:189`): copy the `review_results` list,
append the finding, and route through `update_state`.  A state without a
list there makes Python raise before any update; that branch is
unreachable for library-built states and modelled as appending to `[]`. -/
def add_review_finding (fresh : Nat) (s : StateObj) (finding : PyVal)
    (now : String) : StateObj :=
  let old := match lookupKey s.val "review_results" with
    | some (PyVal.list xs) => xs
    | _ => []
  update_state fresh s [("review_results", PyVal.list (old ++ [finding]))] now

/-- `set_error` (`state.py:209`). -/
def set_error (fresh : Nat) (s : StateObj) (error_message : String)
    (now : String) : StateObj :=
  update_state fresh s
    [("error", PyVal.str error_message), ("current_step", PyVal.str "failed")] now

/-- Python `+` on the numeric values metadata actually holds; any other
operand pair raises `TypeError` in Python (unreachable for the metadata
the library maintains) and is modelled as the left operand. -/
def pyAdd : PyVal → PyVal → PyVal
  | PyVal.int a, PyVal.int b => PyVal.int (a + b)
  | PyVal.int a, PyVal.float b => PyVal.float (a + b)
  | PyVal.float a, PyVal.int b => PyVal.float (a + b)
  | PyVal.float a, PyVal.float b => PyVal.float (a + b)
  | a, _ => a

/-- `update_metadata` (`state.py:227`): copy the metadata dict, add the
cost and token deltas, bump `model_calls` when asked, merge the extra
entries (`dict.update`), stamp `updated_at`, and route the new dict
through `update_state`. -/
def update_metadata (fresh : Nat) (s : StateObj) (cost_usd tokens : PyVal)
    (model_call : Bool) (extra_metadata : List (String × PyVal))
    (now : String) : StateObj :=
  let current := match lookupKey s.val "metadata" with
    | some (PyVal.dict m) => m
    | _ => []
  let m₁ := setKey current "total_cost_usd"
    (pyAdd (getDefault current "total_cost_usd" (PyVal.float 0)) cost_usd)
  let m₂ := setKey m₁ "total_tokens"
    (pyAdd (getDefault m₁ "total_tokens" (PyVal.int 0)) tokens)
  let m₃ := if model_call then
    setKey m₂ "model_calls" (pyAdd (getDefault m₂ "model_calls" (PyVal.int 0)) (PyVal.int 1))
  else m₂
  let m₄ := extra_metadata.foldl (fun acc kv => setKey acc kv.1 kv.2) m₃
  let m₅ := setKey m₄ "updated_at" (PyVal.str now)
  update_state fresh s [("metadata", PyVal.dict m₅)] now

/-! ## The `rate_limited` node wrapper (`app/utils/decorators.py`) -/

/-- One tier of `get_limits_status` (`rate_limiter.py:450`); `remaining`
is a plain Python subtraction and may be negative. -/
structure TierStatus where
  count : Nat
  limit : Nat
  window : String
  remaining : Int
deriving DecidableEq, Repr

/-- The dictionary returned by `get_limits_status`. -/
structure LimitsStatus where
  user : TierStatus
  pr : TierStatus
  repo : TierStatus
deriving DecidableEq, Repr

/-- `get_limits_status` (`rate_limiter.py:450`): current counts, limits and
remaining headroom for the three tiers. -/
def getLimitsStatus (s : RateStore) (user repo : String) (pr_number : Nat)
    (now : Nat) : LimitsStatus :=
  let pk := prKey repo pr_number
  { user := { count := countUserCommands s user now, limit := USER_LIMIT,
              window := "hour",
              remaining := (USER_LIMIT : Int) - countUserCommands s user now },
    pr := { count := countPrCommands s pk, limit := PR_LIMIT,
            window := "total",
            remaining := (PR_LIMIT : Int) - countPrCommands s pk },
    repo := { count := countRepoCommands s repo now, limit := REPO_LIMIT,
              window := "day",
              remaining := (REPO_LIMIT : Int) - countRepoCommands s repo now } }

/-- Reads a string-valued state entry; the command router only ever stores
strings in these fields, so the non-string fallback is unreachable. -/
def pyStrOr (v : PyVal) (dflt : String) : String :=
  match v with
  | PyVal.str s => s
  | _ => dflt

/-- Reads the integer `pr_number` field (always a non-negative GitHub PR
number in the states the router builds). -/
def pyNatOr (v : PyVal) (dflt : Nat) : Nat :=
  match v with
  | PyVal.int n => n.toNat
  | _ => dflt

/-- Parameter extraction of the `rate_limited` wrapper
(`decorators.py:56`–`69`): user and command name from the nested `command`
dict when it is present and a dict, else from flat `commenter` /
`command_name` fields, else `"unknown"`. -/
def rlExtract (d : List (String × PyVal)) : String × String :=
  match lookupKey d "command" with
  | some (PyVal.dict c) =>
      (pyStrOr (getDefault c "commenter" (PyVal.str "unknown")) "unknown",
       pyStrOr (getDefault c "name" (PyVal.str "unknown")) "unknown")
  | _ =>
      if (lookupKey d "commenter").isSome then
        (pyStrOr (getDefault d "commenter" (PyVal.str "unknown")) "unknown",
         pyStrOr (getDefault d "command_name" (PyVal.str "unknown")) "unknown")
      else ("unknown", "unknown")

/-- The markdown body the wrapper posts on a rejection
(`decorators.py:96`–`115`), assembled from the exception and
`get_limits_status`. -/
def rateLimitErrorMessage (e : RateLimitExceeded) (user : String)
    (pr_number : Nat) (repo : String) (st : LimitsStatus) : String :=
  "## ⏱️ Rate Limit Exceeded\n\nYou\x27ve hit the **" ++ e.limit_type.toLower ++
  " rate limit** of **" ++ toString e.limit ++ " commands per " ++ e.window ++
  "**.\n\n### Current Usage\n- **User (" ++ user ++ "):** " ++
  toString st.user.count ++ "/" ++ toString st.user.limit ++
  " commands this hour (remaining: " ++ toString st.user.remaining ++
  ")\n- **PR (#" ++ toString pr_number ++ "):** " ++ toString st.pr.count ++
  "/" ++ toString st.pr.limit ++ " commands total (remaining: " ++
  toString st.pr.remaining ++ ")\n- **Repository (" ++ repo ++ "):** " ++
  toString st.repo.count ++ "/" ++ toString st.repo.limit ++
  " commands today (remaining: " ++ toString st.repo.remaining ++
  ")\n\n### What You Can Do\n- ⏳ **Wait before trying again** - User limits reset every hour\n- 📧 **Contact repository administrators** if you need higher limits\n- 💡 **Batch your requests** to stay within limits\n\n### Why Rate Limits?\nRate limits ensure fair usage and system stability for all users.\n\n---\n*Rate limit exceeded at workflow initialization. Please try again later.*\n"

/-- `rate_limited` (`decorators.py:19`): the wrapper around a node.  It
extracts the limiter parameters from the state, runs `check_and_record`
against the shared store at the current instant, and on a rejection
assigns `state["error"] = str(e)` — and, when the key is present,
`state["agent_result"]` — on the very dict object it received, returning
that same object (`return state`); only when the check passes does it
invoke the wrapped node. -/
def rate_limited (f : StateObj → StateObj) (store : RateStore) (now : Nat)
    (s : StateObj) : StateObj :=
  let (user, command_name) := rlExtract s.val
  let repo := pyStrOr (getDefault s.val "repo_name" (PyVal.str "unknown")) "unknown"
  let pr_number := pyNatOr (getDefault s.val "pr_number" (PyVal.int 0)) 0
  match (checkAndRecord store user repo pr_number command_name now).1 with
  | some e =>
      let status := getLimitsStatus store user repo pr_number now
      let v₁ := setKey s.val "error" (PyVal.str e.message)
      let v₂ := if (lookupKey v₁ "agent_result").isSome then
          setKey v₁ "agent_result"
            (PyVal.str (rateLimitErrorMessage e user pr_number repo status))
        else v₁
      { oid := s.oid, val := v₂ }
  | Option.none => f s

/-! ### State-library lemmas -/

/-- Keys not named by any kwarg are untouched by the kwargs loop. -/
theorem lookupKey_applyKwargs_not_mem (kwargs : List (String × PyVal)) :
    ∀ (d : List (String × PyVal)) (k : String), k ∉ kwargs.map Prod.fst →
    lookupKey (applyKwargs d kwargs) k = lookupKey d k := by
  induction kwargs with
  | nil => intro d k _; rfl
  | cons kv rest ih =>
      intro d k h
      simp only [List.map_cons, List.mem_cons] at h
      push_neg at h
      rw [applyKwargs, List.foldl_cons]
      by_cases hs : (lookupKey d kv.1).isSome
      · rw [if_pos hs]
        rw [show List.foldl _ (setKey d kv.1 kv.2) rest =
              applyKwargs (setKey d kv.1 kv.2) rest from rfl]
        rw [ih _ k h.2]
        exact lookupKey_setKey_ne _ _ _ _ (fun hh => h.1 (hh.symm))
      · rw [if_neg hs]
        exact ih d k h.2

/-- A key that is absent stays absent through the kwargs loop: an update
whose key does not exist is silently dropped. -/
theorem lookupKey_applyKwargs_none (kwargs : List (String × PyVal)) :
    ∀ (d : List (String × PyVal)) (k : String), lookupKey d k = Option.none →
    lookupKey (applyKwargs d kwargs) k = Option.none := by
  induction kwargs with
  | nil => intro d k h; exact h
  | cons kv rest ih =>
      intro d k h
      rw [applyKwargs, List.foldl_cons]
      by_cases hs : (lookupKey d kv.1).isSome
      · rw [if_pos hs]
        have hne : kv.1 ≠ k := by
          intro hh
          rw [hh, h] at hs
          simp at hs
        refine ih _ k ?_
        rw [lookupKey_setKey_ne _ _ _ _ hne]
        exact h
      · rw [if_neg hs]
        exact ih d k h

/-- When every kwarg's key is absent, the kwargs loop is the identity. -/
theorem applyKwargs_eq_of_none (kwargs : List (String × PyVal))
    (d : List (String × PyVal))
    (h : ∀ kv ∈ kwargs, lookupKey d kv.1 = Option.none) :
    applyKwargs d kwargs = d := by
  induction kwargs with
  | nil => rfl
  | cons kv rest ih =>
      rw [applyKwargs, List.foldl_cons]
      have h₁ : lookupKey d kv.1 = Option.none := h kv (List.mem_cons_self _ _)
      rw [h₁]
      simp only [Option.isSome_none, Bool.false_eq_true, if_false]
      exact ih (fun kv' hkv' => h kv' (List.mem_cons_of_mem _ hkv'))

/-- The `updated_at` refresh touches only the `metadata` key. -/
theorem lookupKey_refreshUpdatedAt_ne (d : List (String × PyVal))
    (now : String) (k : String) (h : k ≠ "metadata") :
    lookupKey (refreshUpdatedAt d now) k = lookupKey d k := by
  unfold refreshUpdatedAt
  cases hm : lookupKey d "metadata" with
  | none => rfl
  | some v =>
      cases v with
      | dict m => exact lookupKey_setKey_ne _ _ _ _ (fun hh => h hh.symm)
      | none => rfl
      | bool b => rfl
      | int n => rfl
      | float q => rfl
      | str s => rfl
      | list xs => rfl

/-- An absent key stays absent through the `updated_at` refresh. -/
theorem lookupKey_refreshUpdatedAt_none (d : List (String × PyVal))
    (now : String) (k : String) (h : lookupKey d k = Option.none) :
    lookupKey (refreshUpdatedAt d now) k = Option.none := by
  by_cases hk : k = "metadata"
  · subst hk
    unfold refreshUpdatedAt
    rw [h]
    exact h
  · rw [lookupKey_refreshUpdatedAt_ne d now k hk]
    exact h

/-! ### Claim C3 -/

/-- **C3 (amended).** Every update function of the state library —
`update_state`, `add_review_finding`, `set_error`, `update_metadata` —
returns a freshly allocated dict (the `deepcopy` target, an object id
distinct from the input state's), never mutating the received state in
place, and only the intended keys of the result differ from the input:
the kwargs and `metadata` for `update_state`; `error`, `current_step` and
`metadata` for `set_error`; `review_results` and `metadata` for
`add_review_finding`; `metadata` for `update_metadata`.  The
`rate_limited` node wrapper, by contrast, does mutate its state in place
on a rejection (see the counterexample). -/
theorem c3_state_library_returns_fresh_values
    (fresh : Nat) (s : StateObj) (kwargs : List (String × PyVal))
    (now msg : String) (finding cost tokens : PyVal) (mc : Bool)
    (extra : List (String × PyVal)) (k : String)
    (hfresh : fresh ≠ s.oid) :
    ((update_state fresh s kwargs now).oid ≠ s.oid ∧
      (k ∉ kwargs.map Prod.fst → k ≠ "metadata" →
        lookupKey (update_state fresh s kwargs now).val k = lookupKey s.val k)) ∧
    ((set_error fresh s msg now).oid ≠ s.oid ∧
      (k ≠ "error" → k ≠ "current_step" → k ≠ "metadata" →
        lookupKey (set_error fresh s msg now).val k = lookupKey s.val k)) ∧
    ((add_review_finding fresh s finding now).oid ≠ s.oid ∧
      (k ≠ "review_results" → k ≠ "metadata" →
        lookupKey (add_review_finding fresh s finding now).val k =
          lookupKey s.val k)) ∧
    ((update_metadata fresh s cost tokens mc extra now).oid ≠ s.oid ∧
      (k ≠ "metadata" →
        lookupKey (update_metadata fresh s cost tokens mc extra now).val k =
          lookupKey s.val k)) := by
  have hframe : ∀ (kw : List (String × PyVal)), k ∉ kw.map Prod.fst →
      k ≠ "metadata" →
      lookupKey (update_state fresh s kw now).val k = lookupKey s.val k := by
    intro kw hkw hkm
    unfold update_state
    rw [lookupKey_applyKwargs_not_mem kw _ k hkw]
    exact lookupKey_refreshUpdatedAt_ne s.val now k hkm
  refine ⟨⟨hfresh, hframe kwargs⟩, ⟨hfresh, ?_⟩, ⟨hfresh, ?_⟩, ⟨hfresh, ?_⟩⟩
  · intro h₁ h₂ h₃
    refine hframe _ ?_ h₃
    simp [h₁, h₂]
  · intro h₁ h₂
    refine hframe _ ?_ h₂
    simp [h₁]
  · intro h₁
    refine hframe _ ?_ h₁
    simp [h₁]

/-- The wrapped node of the counterexample; it is never reached on the
rejection path. -/
def c3node : StateObj → StateObj := fun s => s

/-- A store in which `alice` has five commands inside the current hour. -/
def c3store : RateStore :=
  { last_cleanup := 0, per_pr := [], per_repo := [],
    per_user := [("alice",
      { commands :=
        [{ command := "review", timestamp := 0 },
         { command := "review", timestamp := 1 },
         { command := "review", timestamp := 2 },
         { command := "review", timestamp := 3 },
         { command := "review", timestamp := 4 }] })] }

/-- A security-fix-shaped state dict held by object 17: `alice`'s command,
with `error` and `agent_result` both `None`. -/
def c3state : StateObj :=
  { oid := 17,
    val :=
      [("repo_name", PyVal.str "octo/repo"), ("pr_number", PyVal.int 1),
       ("command", PyVal.dict
         [("commenter", PyVal.str "alice"), ("name", PyVal.str "review")]),
       ("error", PyVal.none), ("agent_result", PyVal.none),
       ("current_step", PyVal.str "initialized")] }

/-- **C3 is false as stated for the node wrappers**: on a rejection the
`rate_limited` wrapper returns the very object it received (same object
id) with its `error` entry overwritten in place — the received state is
mutated, not replaced by a fresh value. -/
theorem c3_counterexample_rate_limited_mutates_in_place :
    (rate_limited c3node c3store 10 c3state).oid = c3state.oid ∧
    lookupKey (rate_limited c3node c3store 10 c3state).val "error" =
      some (PyVal.str "User rate limit exceeded: 5 per hour") ∧
    lookupKey c3state.val "error" = some PyVal.none ∧
    some (PyVal.str "User rate limit exceeded: 5 per hour") ≠
      some (PyVal.none) :=
  ⟨rfl, rfl, rfl, fun h => by
    have := Option.some.inj h
    exact PyVal.noConfusion this⟩

theorem c3_state_library_witness :
    (update_state 18 c3state [("current_step", PyVal.str "scanning")] "T1").oid ≠
        c3state.oid ∧
    lookupKey (update_state 18 c3state
        [("current_step", PyVal.str "scanning")] "T1").val "error" =
      lookupKey c3state.val "error" :=
  ⟨((c3_state_library_returns_fresh_values 18 c3state
      [("current_step", PyVal.str "scanning")] "T1" "boom"
      PyVal.none PyVal.none PyVal.none false [] "error"
      (by decide)).1).1,
   ((c3_state_library_returns_fresh_values 18 c3state
      [("current_step", PyVal.str "scanning")] "T1" "boom"
      PyVal.none PyVal.none PyVal.none false [] "error"
      (by decide)).1).2 (by simp) (by simp)⟩

/-! ### Claim C9 -/

/-- **C9.** `update_state` applies only keyword updates whose key already
exists in the input state: an update whose key is not a key of the state
leaves no trace (the key is still absent afterwards), and when every
keyword argument is unknown the returned state is exactly a (deep) copy of
the input with only `metadata["updated_at"]` refreshed to the current
timestamp. -/
theorem c9_update_state_drops_unknown_keys
    (fresh : Nat) (s : StateObj) (kwargs : List (String × PyVal))
    (now : String) (m : List (String × PyVal))
    (hmeta : lookupKey s.val "metadata" = some (PyVal.dict m)) :
    (∀ kv ∈ kwargs, lookupKey s.val kv.1 = Option.none →
      lookupKey (update_state fresh s kwargs now).val kv.1 = Option.none) ∧
    ((∀ kv ∈ kwargs, lookupKey s.val kv.1 = Option.none) →
      (update_state fresh s kwargs now).val =
        setKey s.val "metadata"
          (PyVal.dict (setKey m "updated_at" (PyVal.str now)))) := by
  have hrefresh : refreshUpdatedAt s.val now =
      setKey s.val "metadata"
        (PyVal.dict (setKey m "updated_at" (PyVal.str now))) := by
    unfold refreshUpdatedAt
    rw [hmeta]
  constructor
  · intro kv _ hnone
    unfold update_state
    exact lookupKey_applyKwargs_none kwargs _ kv.1
      (lookupKey_refreshUpdatedAt_none s.val now kv.1 hnone)
  · intro hall
    unfold update_state
    rw [hrefresh]
    apply applyKwargs_eq_of_none
    intro kv hkv
    have h₁ : lookupKey s.val kv.1 = Option.none := hall kv hkv
    have h₂ : kv.1 ≠ "metadata" := by
      intro hh
      rw [hh, hmeta] at h₁
      exact Option.noConfusion h₁
    rw [lookupKey_setKey_ne _ _ _ _ (fun hh => h₂ hh.symm)]
    exact h₁

/-- A fresh `WorkflowState` as the executor builds it. -/
def c9state : StateObj :=
  { oid := 3,
    val := create_initial_workflow_state "octo/repo" 1 "" Option.none [] "T0" }

theorem c9_update_state_witness :
    lookupKey (update_state 4 c9state
        [("bogus_field", PyVal.int 1)] "T1").val "bogus_field" =
      Option.none ∧
    (update_state 4 c9state [("bogus_field", PyVal.int 1)] "T1").val =
      setKey c9state.val "metadata"
        (PyVal.dict (setKey
          [("created_at", PyVal.str "T0"), ("updated_at", PyVal.str "T0"),
           ("total_cost_usd", PyVal.float 0), ("total_tokens", PyVal.int 0),
           ("model_calls", PyVal.int 0)]
          "updated_at" (PyVal.str "T1"))) := by
  have h := c9_update_state_drops_unknown_keys 4 c9state
    [("bogus_field", PyVal.int 1)] "T1"
    [("created_at", PyVal.str "T0"), ("updated_at", PyVal.str "T0"),
     ("total_cost_usd", PyVal.float 0), ("total_tokens", PyVal.int 0),
     ("model_calls", PyVal.int 0)] rfl
  refine ⟨?_, ?_⟩
  · exact h.1 ("bogus_field", PyVal.int 1) (List.mem_singleton.mpr rfl) rfl
  · refine h.2 ?_
    intro kv hkv
    rcases List.mem_singleton.mp hkv with rfl
    rfl

/-! ## Executor result construction (`app/workflows/executor.py`) -/

/-- The two dictionary shapes `execute_workflow_from_webhook` returns
(`executor.py:328` and `executor.py:362`).  The `*_formatted` entries of
the Python dict are string renderings (`format_duration`, `format_cost`,
`format_tokens`) of the numeric entries carried here and are omitted: they
add no further dependence on the terminal state. -/
inductive WebhookResult where
  | failure (error : PyVal) (repo_name : String) (pr_number : Nat)
      (duration : Rat)
  | success (repo_name : String) (pr_number : Nat) (findings_count : Nat)
      (critical high medium low info : PyVal) (cost_usd tokens : PyVal)
      (duration : Rat) (requires_approval : PyVal)

/-- The `findings_count` entry of a result. -/
def WebhookResult.findingsCountOf : WebhookResult → Nat
  | WebhookResult.failure .. => 0
  | WebhookResult.success _ _ n .. => n

/-- The result-building tail of `execute_workflow_from_webhook`
(`executor.py:315`–`379`): on a truthy `error`, a failure dict carrying the
error; otherwise a success dict with `findings_count =
len(final_state["review_results"])`, severity counts and totals read from
`metadata` with the source's defaults.  A missing or non-list
`review_results`, or a missing/non-dict `metadata`, raises in Python and is
unreachable for executor-built states; those branches are modelled with
the defaults shown. -/
def buildWebhookResult (repo_name : String) (pr_number : Nat)
    (duration : Rat) (st : List (String × PyVal)) : WebhookResult :=
  if pyTruthy (getDefault st "error" PyVal.none) then
    WebhookResult.failure (getDefault st "error" PyVal.none) repo_name
      pr_number duration
  else
    let metadata := match lookupKey st "metadata" with
      | some (PyVal.dict m) => m
      | _ => []
    let severity_counts := match getDefault metadata "severity_counts" (PyVal.dict []) with
      | PyVal.dict sc => sc
      | _ => []
    let findings_count := match lookupKey st "review_results" with
      | some (PyVal.list l) => l.length
      | _ => 0
    WebhookResult.success repo_name pr_number findings_count
      (getDefault severity_counts "CRITICAL" (PyVal.int 0))
      (getDefault severity_counts "HIGH" (PyVal.int 0))
      (getDefault severity_counts "MEDIUM" (PyVal.int 0))
      (getDefault severity_counts "LOW" (PyVal.int 0))
      (getDefault severity_counts "INFO" (PyVal.int 0))
      (getDefault metadata "total_cost_usd" (PyVal.int 0))
      (getDefault metadata "total_tokens" (PyVal.int 0))
      duration
      (getDefault metadata "requires_approval" (PyVal.bool false))

/-! ### Claim C5 -/

/-- A terminal-state metadata dict shared by the C5 states. -/
def c5meta : List (String × PyVal) :=
  [("created_at", PyVal.str "T0"), ("updated_at", PyVal.str "T1"),
   ("total_cost_usd", PyVal.float 0), ("total_tokens", PyVal.int 0),
   ("model_calls", PyVal.int 1)]

/-- A terminal state with no findings. -/
def c5state1 : List (String × PyVal) :=
  [("pr_data", PyVal.dict [("repo_name", PyVal.str "octo/repo"),
      ("pr_number", PyVal.int 1)]),
   ("review_results", PyVal.list []),
   ("current_step", PyVal.str "completed"),
   ("error", PyVal.none),
   ("metadata", PyVal.dict c5meta)]

/-- The same terminal state except for one review finding. -/
def c5state2 : List (String × PyVal) :=
  [("pr_data", PyVal.dict [("repo_name", PyVal.str "octo/repo"),
      ("pr_number", PyVal.int 1)]),
   ("review_results", PyVal.list
     [PyVal.dict [("severity", PyVal.str "HIGH"),
       ("title", PyVal.str "SQL injection")]]),
   ("current_step", PyVal.str "completed"),
   ("error", PyVal.none),
   ("metadata", PyVal.dict c5meta)]

/-- As `c5state2` but with a different finding of the same count. -/
def c5state3 : List (String × PyVal) :=
  [("pr_data", PyVal.dict [("repo_name", PyVal.str "octo/repo"),
      ("pr_number", PyVal.int 1)]),
   ("review_results", PyVal.list
     [PyVal.dict [("severity", PyVal.str "LOW"),
       ("title", PyVal.str "unused import")]]),
   ("current_step", PyVal.str "completed"),
   ("error", PyVal.none),
   ("metadata", PyVal.dict c5meta)]

/-- **C5 is false as stated**: two terminal states agreeing on `error` and
`metadata` but differing in the pipeline-internal `review_results` list
yield different webhook results — the executor's success dict carries
`findings_count = len(final_state["review_results"])`. -/
theorem c5_counterexample_result_reads_review_results :
    lookupKey c5state1 "error" = lookupKey c5state2 "error" ∧
    lookupKey c5state1 "metadata" = lookupKey c5state2 "metadata" ∧
    buildWebhookResult "octo/repo" 1 0 c5state1 ≠
      buildWebhookResult "octo/repo" 1 0 c5state2 :=
  ⟨rfl, rfl, fun h =>
    absurd (congrArg WebhookResult.findingsCountOf h) (by decide)⟩

/-- **C5 (amended).** The webhook result is a function of the terminal
state's `error` value, its `metadata` dict and the *length* of its
`review_results` list alone: two terminal states agreeing on those three
produce identical results, whatever the contents of `review_results` or
any other pipeline-internal field. -/
theorem c5_result_depends_only_on_error_metadata_findings_count
    (r : String) (p : Nat) (d : Rat) (st₁ st₂ : List (String × PyVal))
    (l₁ l₂ : List PyVal)
    (herr : lookupKey st₁ "error" = lookupKey st₂ "error")
    (hmeta : lookupKey st₁ "metadata" = lookupKey st₂ "metadata")
    (hrev₁ : lookupKey st₁ "review_results" = some (PyVal.list l₁))
    (hrev₂ : lookupKey st₂ "review_results" = some (PyVal.list l₂))
    (hlen : l₁.length = l₂.length) :
    buildWebhookResult r p d st₁ = buildWebhookResult r p d st₂ := by
  unfold buildWebhookResult getDefault
  rw [herr, hmeta, hrev₁, hrev₂]
  simp only [hlen]

theorem c5_result_witness :
    buildWebhookResult "octo/repo" 1 0 c5state2 =
      buildWebhookResult "octo/repo" 1 0 c5state3 :=
  c5_result_depends_only_on_error_metadata_findings_count "octo/repo" 1 0
    c5state2 c5state3
    [PyVal.dict [("severity", PyVal.str "HIGH"),
      ("title", PyVal.str "SQL injection")]]
    [PyVal.dict [("severity", PyVal.str "LOW"),
      ("title", PyVal.str "unused import")]]
    rfl rfl rfl rfl rfl

/-! ## Pipeline graphs (`app/workflows/…`, `app/models/workflow_states.py`)

The five pipelines are LangGraph `StateGraph`s.  `GraphStructure` records
what a `create_*_workflow` builder declares: node names, entry point,
unconditional edges and conditional-edge label tables.  The routing
functions passed to `add_conditional_edges` are modelled as the standalone
Lean functions they are in the source (`checkIssuesFound`,
`checkTestsPassed`, `checkHasNewFiles`); the table stores the label → node
mapping given at the same call site.  `END` is LangGraph's terminal
marker. -/

def END : String := "__end__"

structure GraphStructure where
  entry : Option String
  nodes : List String
  edges : List (String × String)
  cond_edges : List (String × List (String × String))

def GraphStructure.addNode (g : GraphStructure) (n : String) : GraphStructure :=
  { g with nodes := g.nodes ++ [n] }

def GraphStructure.setEntryPoint (g : GraphStructure) (n : String) : GraphStructure :=
  { g with entry := some n }

def GraphStructure.addEdge (g : GraphStructure) (a b : String) : GraphStructure :=
  { g with edges := g.edges ++ [(a, b)] }

def GraphStructure.addConditionalEdges (g : GraphStructure) (src : String)
    (table : List (String × String)) : GraphStructure :=
  { g with cond_edges := g.cond_edges ++ [(src, table)] }

def emptyGraphStructure : GraphStructure :=
  { entry := Option.none, nodes := [], edges := [], cond_edges := [] }

/-- `SecurityIssue` (`workflow_states.py:16`). -/
structure SecurityIssue where
  id : String
  severity : String
  type : String
  file : String
  line : Int
  description : String
  confidence : Rat
  cwe_id : Option String

/-- `ProposedFix` (`workflow_states.py:29`). -/
structure ProposedFix where
  issue_id : String
  file : String
  original_code : String
  fixed_code : String
  explanation : String
  patch : String

/-- `SecurityFixState` (`workflow_states.py:40`).  The GitHub and Gemini
client handles are opaque runtime objects, modelled as unit options. -/
structure SecurityFixState where
  repo_name : String
  pr_number : Int
  installation_id : Int
  command : Option (List (String × PyVal))
  github_client : Option Unit
  gemini_client : Option Unit
  pr_data : List (String × PyVal)
  security_issues : List SecurityIssue
  scan_complete : Bool
  proposed_fixes : List ProposedFix
  fixes_generated : Bool
  test_branch_name : Option String
  test_results : List (String × PyVal)
  tests_passed : Bool
  pr_url : Option String
  pr_created : Bool
  error : Option String
  rollback_needed : Bool
  rollback_complete : Bool
  current_step : String
  metadata : List (String × PyVal)
  agent_result : Option String

/-- `create_security_fix_state` (`workflow_states.py:371`). -/
def create_security_fix_state (repo_name : String) (pr_number : Int)
    (installation_id : Int) (github_client gemini_client : Option Unit)
    (command : Option (List (String × PyVal)))
    (pr_data : Option (List (String × PyVal))) (now : String) :
    SecurityFixState :=
  { repo_name := repo_name, pr_number := pr_number,
    installation_id := installation_id, command := command,
    github_client := github_client, gemini_client := gemini_client,
    pr_data := pr_data.getD [], security_issues := [], scan_complete := false,
    proposed_fixes := [], fixes_generated := false,
    test_branch_name := Option.none, test_results := [],
    tests_passed := false, pr_url := Option.none, pr_created := false,
    error := Option.none, rollback_needed := false,
    rollback_complete := false, current_step := "initialized",
    metadata :=
      [("created_at", PyVal.str now), ("total_cost_usd", PyVal.float 0),
       ("total_tokens", PyVal.int 0),
       ("workflow_duration_seconds", PyVal.float 0)],
    agent_result := Option.none }

/-- `scan_security_issues_node` (`security_fix_workflow.py:30`), with the
external scanner call (`SecurityScanner.scan`) as an oracle: on success the
issues land in the state; an exception sets `error` and leaves
`security_issues` as it was. -/
def scanSecurityIssuesNode (scan : Except String (List SecurityIssue))
    (s : SecurityFixState) : SecurityFixState :=
  match scan with
  | Except.ok issues =>
      { s with security_issues := issues, scan_complete := true,
               current_step := "scan_complete" }
  | Except.error e =>
      { s with error := some ("Security scan failed: " ++ e),
               scan_complete := false }

/-- The body of `post_no_issues_node` (`security_fix_workflow.py:356`). -/
def noIssuesFoundMessage : String :=
  "## ✅ No Security Issues Found\n\nI scanned your code and didn\x27t find any security vulnerabilities.\n\nYour code looks secure! 🎉\n\n🤖 Powered by RepoAuditor AI\n"

/-- `post_no_issues_node` (`security_fix_workflow.py:354`). -/
def postNoIssuesNode (s : SecurityFixState) : SecurityFixState :=
  { s with agent_result := some noIssuesFoundMessage,
           current_step := "complete" }

/-- `check_issues_found` (`security_fix_workflow.py:377`). -/
def checkIssuesFound (s : SecurityFixState) : String :=
  if s.security_issues.length > 0 then "generate_fixes" else "post_no_issues"

/-- `check_tests_passed` (`security_fix_workflow.py:384`). -/
def checkTestsPassed (s : SecurityFixState) : String :=
  if s.tests_passed then "create_pr" else "rollback"

/-- `create_security_fix_workflow` (`security_fix_workflow.py:396`): the
declared graph.  The conditional edges carry `check_issues_found` and
`check_tests_passed` as their routing functions. -/
def createSecurityFixWorkflow : GraphStructure :=
  ((((((((((((emptyGraphStructure.addNode "scan_security").addNode
    "generate_fixes").addNode "create_branch").addNode "run_tests").addNode
    "create_pr").addNode "rollback").addNode
    "post_no_issues").setEntryPoint "scan_security").addConditionalEdges
    "scan_security"
    [("generate_fixes", "generate_fixes"),
     ("post_no_issues", "post_no_issues")]).addEdge "generate_fixes"
    "create_branch").addEdge "create_branch" "run_tests").addConditionalEdges
    "run_tests"
    [("create_pr", "create_pr"), ("rollback", "rollback")]).addEdge
    "create_pr" END |>.addEdge "rollback" END |>.addEdge "post_no_issues" END

/-- `Finding` (`workflow_states.py:104`). -/
structure Finding where
  severity : String
  type : String
  category : String
  file : String
  line : Option Int
  title : String
  description : String
  recommendation : String

/-- `IncrementalReviewState` (`workflow_states.py:323`).
`previously_reviewed_files` is a Python `set[str]`; only membership and
size matter here, modelled as a list of its elements. -/
structure IncrementalReviewState where
  repo_name : String
  pr_number : Int
  installation_id : Int
  command : Option (List (String × PyVal))
  github_client : Option Unit
  gemini_client : Option Unit
  pr_data : List (String × PyVal)
  all_files : List String
  previously_reviewed_files : List String
  new_files_to_review : List String
  history_loaded : Bool
  new_findings : List Finding
  previous_feedback : List (String × List String)
  review_complete : Bool
  tracking_file_path : String
  history_saved : Bool
  current_step : String
  error : Option String
  metadata : List (String × PyVal)
  agent_result : Option String

/-- `load_history_node` (`incremental_review_workflow.py:19`), with the
tracking-file read as an oracle: `ok (some files)` is an existing history
file listing the reviewed files, `ok none` is a missing file, and an
exception sets `error` and leaves the file lists as they were. -/
def loadHistoryNode (load : Except String (Option (List String)))
    (s : IncrementalReviewState) : IncrementalReviewState :=
  match load with
  | Except.ok (some reviewed) =>
      { s with previously_reviewed_files := reviewed, history_loaded := true,
               current_step := "history_loaded" }
  | Except.ok Option.none =>
      { s with previously_reviewed_files := [], history_loaded := true,
               current_step := "history_loaded" }
  | Except.error e => { s with error := some e }

/-- `identify_new_files_node` (`incremental_review_workflow.py:53`):
filenames of `pr_data["files"]` not previously reviewed. -/
def identifyNewFilesNode (all_files : List String)
    (s : IncrementalReviewState) : IncrementalReviewState :=
  let new_files := all_files.filter (fun f => f ∉ s.previously_reviewed_files)
  { s with all_files := all_files, new_files_to_review := new_files,
           current_step := "files_identified" }

/-- The body of `post_no_new_files_node`
(`incremental_review_workflow.py:147`). -/
def noNewFilesMessage : String :=
  "## ✅ No New Files to Review\n\nAll files in this PR have been reviewed previously.\n\n🤖 Powered by RepoAuditor AI\n"

/-- `post_no_new_files_node` (`incremental_review_workflow.py:145`). -/
def postNoNewFilesNode (s : IncrementalReviewState) : IncrementalReviewState :=
  { s with agent_result := some noNewFilesMessage, current_step := "complete" }

/-- `check_has_new_files` (`incremental_review_workflow.py:161`). -/
def checkHasNewFiles (s : IncrementalReviewState) : String :=
  if s.new_files_to_review.length > 0 then "review_new" else "post_no_new"

/-- `create_incremental_review_state` (`workflow_states.py:558`); the
tracking-file path substitutes `-` for `/` in the repository name. -/
def create_incremental_review_state (repo_name : String) (pr_number : Int)
    (installation_id : Int) (github_client gemini_client : Option Unit)
    (command : Option (List (String × PyVal)))
    (pr_data : Option (List (String × PyVal))) (now : String) :
    IncrementalReviewState :=
  { repo_name := repo_name, pr_number := pr_number,
    installation_id := installation_id, command := command,
    github_client := github_client, gemini_client := gemini_client,
    pr_data := pr_data.getD [], all_files := [],
    previously_reviewed_files := [], new_files_to_review := [],
    history_loaded := false, new_findings := [], previous_feedback := [],
    review_complete := false,
    tracking_file_path := "data/incremental_reviews/" ++
      (repo_name.replace "/" "-") ++ "/pr-" ++ toString pr_number ++ ".json",
    history_saved := false, current_step := "initialized",
    error := Option.none,
    metadata :=
      [("created_at", PyVal.str now), ("total_cost_usd", PyVal.float 0),
       ("total_tokens", PyVal.int 0)],
    agent_result := Option.none }

/-- `create_incremental_review_workflow`
(`incremental_review_workflow.py:168`); the conditional edge carries
`check_has_new_files`. -/
def createIncrementalReviewWorkflow : GraphStructure :=
  ((((((((emptyGraphStructure.addNode "load_history").addNode
    "identify_new").addNode "review_new").addNode "save_history").addNode
    "post_no_new").setEntryPoint "load_history").addEdge "load_history"
    "identify_new").addConditionalEdges "identify_new"
    [("review_new", "review_new"), ("post_no_new", "post_no_new")]).addEdge
    "review_new" "save_history" |>.addEdge "save_history" END
    |>.addEdge "post_no_new" END

/-- `Bug` (`workflow_states.py:169`). -/
structure Bug where
  id : String
  type : String
  severity : String
  file : String
  line : Int
  description : String
  confidence : Rat

/-- `Fix` (`workflow_states.py:181`); named `BugFix` here because Lean's
library already has a `Fix`. -/
structure BugFix where
  bug_id : String
  file : String
  original_code : String
  fixed_code : String
  explanation : String
  patch : String

/-- `GeneratedTest` (`workflow_states.py:192`). -/
structure GeneratedTest where
  fix_id : String
  test_file : String
  test_code : String
  test_framework : String
  description : String

/-- `AutoFixState` (`workflow_states.py:202`). -/
structure AutoFixState where
  repo_name : String
  pr_number : Int
  installation_id : Int
  command : Option (List (String × PyVal))
  github_client : Option Unit
  gemini_client : Option Unit
  pr_data : List (String × PyVal)
  detected_bugs : List Bug
  bugs_detected : Bool
  fixes : List BugFix
  fixes_generated : Bool
  generated_tests : List GeneratedTest
  tests_generated : Bool
  fix_validation : List (String × Bool)
  test_validation : List (String × Bool)
  branch_name : String
  pr_url : Option String
  pr_created : Bool
  current_step : String
  error : Option String
  metadata : List (String × PyVal)
  agent_result : Option String

/-- `create_auto_fix_state` (`workflow_states.py:470`). -/
def create_auto_fix_state (repo_name : String) (pr_number : Int)
    (installation_id : Int) (github_client gemini_client : Option Unit)
    (command : Option (List (String × PyVal)))
    (pr_data : Option (List (String × PyVal))) (now : String) : AutoFixState :=
  { repo_name := repo_name, pr_number := pr_number,
    installation_id := installation_id, command := command,
    github_client := github_client, gemini_client := gemini_client,
    pr_data := pr_data.getD [], detected_bugs := [], bugs_detected := false,
    fixes := [], fixes_generated := false, generated_tests := [],
    tests_generated := false, fix_validation := [], test_validation := [],
    branch_name := "", pr_url := Option.none, pr_created := false,
    current_step := "initialized", error := Option.none,
    metadata :=
      [("created_at", PyVal.str now), ("total_cost_usd", PyVal.float 0),
       ("total_tokens", PyVal.int 0)],
    agent_result := Option.none }

/-- The per-fix loop of `generate_tests_node`
(`auto_fix_workflow.py:65`–`70`): run the external test generator on each
fix in order, extending one list; the first exception aborts the loop. -/
def collectTests (gen : BugFix → Except String (List GeneratedTest)) :
    List BugFix → Except String (List GeneratedTest)
  | [] => Except.ok []
  | f :: rest => do
      let ts ← gen f
      let more ← collectTests gen rest
      pure (ts ++ more)

/-- The summary posted by `generate_tests_node`
(`auto_fix_workflow.py:72`–`80`). -/
def autoFixSummary (nFixes nTests : Nat) : String :=
  "## 🔧 Auto-Fix Complete\n\n### Bugs Fixed: " ++ toString nFixes ++
  "\n### Tests Generated: " ++ toString nTests ++
  "\n\n✅ Created PR with fixes and tests\n\n🤖 Powered by RepoAuditor AI\n"

/-- `generate_tests_node` (`auto_fix_workflow.py:59`): generate tests for
every fix and publish the completion summary as `agent_result` in the same
step; an exception from the generator sets `error` instead. -/
def generateTestsNode (gen : BugFix → Except String (List GeneratedTest))
    (s : AutoFixState) : AutoFixState :=
  match collectTests gen s.fixes with
  | Except.ok all_tests =>
      { s with generated_tests := all_tests, tests_generated := true,
               agent_result := some (autoFixSummary s.fixes.length all_tests.length),
               current_step := "complete" }
  | Except.error e => { s with error := some e }

/-- `create_auto_fix_workflow` (`auto_fix_workflow.py:93`): three nodes in
a line, no conditional edges. -/
def createAutoFixWorkflow : GraphStructure :=
  ((((((emptyGraphStructure.addNode "detect_bugs").addNode
    "generate_fixes").addNode "generate_tests").setEntryPoint
    "detect_bugs").addEdge "detect_bugs" "generate_fixes").addEdge
    "generate_fixes" "generate_tests").addEdge "generate_tests" END

/-! ### Claim C4 -/

/-- **C4 (amended).** The conditional routing functions downstream of the
fallible nodes do not branch on the State's `error` field: each of
`check_issues_found`, `check_tests_passed` and `check_has_new_files` reads
only its domain field, so a State with `error` set is routed to exactly
the same label as the same State without it, and the only labels they can
emit are the two normal-path labels of their edge tables — neither graph
declares a separate terminal failure path for these edges.  (The engine
itself never inspects `error`; propagation to a failure path, which the
spec assigns to these routing functions, is absent.) -/
theorem c4_routing_functions_ignore_error
    (s : SecurityFixState) (t : IncrementalReviewState)
    (e e' : Option String) :
    checkIssuesFound { s with error := e } =
      checkIssuesFound { s with error := e' } ∧
    checkTestsPassed { s with error := e } =
      checkTestsPassed { s with error := e' } ∧
    checkHasNewFiles { t with error := e } =
      checkHasNewFiles { t with error := e' } ∧
    (checkIssuesFound s = "generate_fixes" ∨
      checkIssuesFound s = "post_no_issues") ∧
    (checkHasNewFiles t = "review_new" ∨ checkHasNewFiles t = "post_no_new") := by
  refine ⟨rfl, rfl, rfl, ?_, ?_⟩
  · unfold checkIssuesFound
    by_cases h : s.security_issues.length > 0
    · exact Or.inl (by rw [if_pos h])
    · exact Or.inr (by rw [if_neg h])
  · unfold checkHasNewFiles
    by_cases h : t.new_files_to_review.length > 0
    · exact Or.inl (by rw [if_pos h])
    · exact Or.inr (by rw [if_neg h])

/-- The state produced by a failing security scan on a fresh run. -/
def c4errState : SecurityFixState :=
  scanSecurityIssuesNode (Except.error "boom")
    (create_security_fix_state "octo/repo" 1 42 Option.none Option.none
      Option.none Option.none "T0")

/-- **C4 is false as stated**: when the scan node fails, the very next
routing function `check_issues_found` sends the `error`-carrying State to
`post_no_issues` — the normal "nothing found" publication node, which
overwrites `agent_result` with the success message and marks the run
`complete` — not toward any terminal failure path. -/
theorem c4_counterexample_error_state_routed_to_success_path :
    c4errState.error = some "Security scan failed: boom" ∧
    checkIssuesFound c4errState = "post_no_issues" ∧
    lookupKey createSecurityFixWorkflow.cond_edges "scan_security" =
      some [("generate_fixes", "generate_fixes"),
            ("post_no_issues", "post_no_issues")] ∧
    (postNoIssuesNode c4errState).agent_result = some noIssuesFoundMessage ∧
    (postNoIssuesNode c4errState).current_step = "complete" ∧
    (postNoIssuesNode c4errState).error = some "Security scan failed: boom" :=
  ⟨rfl, rfl, rfl, rfl, rfl, rfl⟩

/-! ### Claim C8 -/

/-- **C8.** The auto-fix pipeline graph is a straight line with no
test-gate: its entry is `detect_bugs`, its edges run
detect-bugs → generate-fixes → generate-tests → terminal, it declares no
conditional edge at all (hence none that checks a test pass/fail outcome),
and the publish summary (`agent_result`) is produced inside the
generate-tests step itself, as soon as test generation succeeds, without
validating the generated fixes against the generated tests — the
`fix_validation` and `test_validation` fields are left untouched. -/
theorem c8_auto_fix_graph_is_straight_line
    (gen : BugFix → Except String (List GeneratedTest)) (s : AutoFixState)
    (ts : List GeneratedTest) (hgen : collectTests gen s.fixes = Except.ok ts) :
    createAutoFixWorkflow.entry = some "detect_bugs" ∧
    createAutoFixWorkflow.edges =
      [("detect_bugs", "generate_fixes"), ("generate_fixes", "generate_tests"),
       ("generate_tests", END)] ∧
    createAutoFixWorkflow.cond_edges = [] ∧
    (generateTestsNode gen s).agent_result =
      some (autoFixSummary s.fixes.length ts.length) ∧
    (generateTestsNode gen s).fix_validation = s.fix_validation ∧
    (generateTestsNode gen s).test_validation = s.test_validation := by
  refine ⟨rfl, rfl, rfl, ?_, ?_, ?_⟩ <;>
    · unfold generateTestsNode
      rw [hgen]

/-- A generator producing one test for each fix. -/
def c8gen : BugFix → Except String (List GeneratedTest) := fun f =>
  Except.ok [{ fix_id := f.bug_id, test_file := "tests/test_fix.py",
               test_code := "assert True", test_framework := "pytest",
               description := "regression test" }]

/-- An auto-fix state holding one generated fix. -/
def c8state : AutoFixState :=
  { create_auto_fix_state "octo/repo" 1 42 Option.none Option.none
      Option.none Option.none "T0" with
    fixes := [{ bug_id := "b1", file := "app/main.py", original_code := "x",
                fixed_code := "y", explanation := "off by one",
                patch := "@@" }],
    fixes_generated := true }

theorem c8_auto_fix_witness :
    createAutoFixWorkflow.cond_edges = [] ∧
    (generateTestsNode c8gen c8state).agent_result =
      some (autoFixSummary 1 1) := by
  have h := c8_auto_fix_graph_is_straight_line c8gen c8state
    [{ fix_id := "b1", test_file := "tests/test_fix.py",
       test_code := "assert True", test_framework := "pytest",
       description := "regression test" }] rfl
  exact ⟨h.2.2.1, h.2.2.2.1⟩
